import Mathlib

/-!
Verification of the synthetic-identity generator page (`src/app/page.tsx`)
against its specification.  The page orchestrates five generators from
`@/lib/generator` (name, birthday, phone, password, email), a country
registry and a domain registry, and a saved-identity store from
`@/lib/identityData`.  Those libraries are not part of the source tree,
so they are modelled from the specification; the orchestration code
(`generate`, the initialisation and regeneration effects, the save and
selection handlers, and the `DomainList` filtering) is embedded directly
from `src/app/page.tsx`.

Randomness is modelled as an explicit stream of draws (`List Nat`)
threaded through every generator, so all definitions are executable.
-/

/-- Tagged errors of the engine (spec §7): unknown country code,
malformed registry data, syntactically invalid explicit domain. -/
inductive GenError where
  | notFound
  | configError
  | invalidDomain
deriving DecidableEq, Repr

/-- One draw from the random stream: the head of the stream (0 when the
stream is exhausted) and the rest of the stream. -/
def draw : List Nat → Nat × List Nat
  | [] => (0, [])
  | n :: rest => (n, rest)

/-- Country configuration (spec §3): code, display name, dialing prefix,
phone template and the two name pools. -/
structure CountryConfig where
  code : String
  name : String
  dialPrefix : String
  phoneFormat : String
  firstNamePool : List String
  lastNamePool : List String
deriving DecidableEq, Repr

/-- Modelled from the spec: the United States entry of the static
country table of `@/lib/countryData` (not in the source tree). -/
def usConfig : CountryConfig :=
  { code := "US", name := "United States", dialPrefix := "+1",
    phoneFormat := "+1 (XXX) XXX-XXXX",
    firstNamePool := ["James", "Mary", "John"],
    lastNamePool := ["Smith", "Johnson", "Brown"] }

/-- Modelled from the spec: the United Kingdom entry of the static
country table of `@/lib/countryData` (not in the source tree). -/
def gbConfig : CountryConfig :=
  { code := "GB", name := "United Kingdom", dialPrefix := "+44",
    phoneFormat := "+44 7XXX XXXXXX",
    firstNamePool := ["Oliver", "Amelia"],
    lastNamePool := ["Taylor", "Wilson"] }

/-- Modelled from the spec: the static country table of
`@/lib/countryData` (not in the source tree).  Two representative
entries with unique codes and non-empty name pools. -/
def countries : List CountryConfig :=
  [usConfig, gbConfig]

/-- Modelled from the spec: `lookup(code) -> CountryConfig | not-found`
(spec §4.1) for `getCountryConfig` of `@/lib/generator`; `none` models
the not-found failure the caller observes. -/
def getCountryConfig (code : String) : Option CountryConfig :=
  countries.find? (fun c => c.code == code)

/-- Modelled from the spec: the static domain pool of the Domain
Registry (spec §4.2) behind `getAllDomains` of `@/lib/generator`. -/
def allDomainsList : List String :=
  ["gmail.com", "yopmail.com", "outlook.com", "mail.com"]

/-- Modelled from the spec: `all() -> ordered sequence of domain strings`
(spec §4.2), the `getAllDomains` import of `@/lib/generator`. -/
def getAllDomains : List String :=
  allDomainsList

/-- Modelled from the spec: the core of the Name Generator (spec §4.3),
selecting one entry from each pool and failing with a config error on an
empty pool. -/
def generateNameFromPools (cfg : CountryConfig) (r : List Nat) :
    Except GenError ((String × String) × List Nat) :=
  if cfg.firstNamePool.isEmpty || cfg.lastNamePool.isEmpty then
    Except.error GenError.configError
  else
    let i := draw r
    let j := draw i.2
    Except.ok ((cfg.firstNamePool.getD (i.1 % cfg.firstNamePool.length) "",
                cfg.lastNamePool.getD (j.1 % cfg.lastNamePool.length) ""), j.2)

/-- Modelled from the spec: the `generateName` import of
`@/lib/generator` as called by the page with a country code; it resolves
the code through the Country Registry and then runs the Name Generator
(spec §4.1, §4.3). -/
def generateName (code : String) (r : List Nat) :
    Except GenError ((String × String) × List Nat) :=
  match getCountryConfig code with
  | none => Except.error GenError.notFound
  | some cfg => generateNameFromPools cfg r

/-- Adult-age window minimum (spec §4.4 policy constant). -/
def minAge : Nat := 18

/-- Adult-age window maximum (spec §4.4 policy constant). -/
def maxAge : Nat := 65

/-- Generation-time clock, abstracted as a constant year. -/
def currentYear : Nat := 2024

/-- Day count of a month, leap years handled (spec §4.4). -/
def daysInMonth (y m : Nat) : Nat :=
  if m = 2 then
    if y % 4 = 0 && (y % 100 ≠ 0 || y % 400 = 0) then 29 else 28
  else if m = 4 || m = 6 || m = 9 || m = 11 then 30
  else 31

/-- Two-digit zero padding for date rendering. -/
def pad2 (n : Nat) : String :=
  if n < 10 then "0" ++ toString n else "" ++ toString n

/-- Modelled from the spec: the Birthday Generator (spec §4.4), the
`generateBirthday` import of `@/lib/generator`: a calendar-valid date
whose implied age lies in the adult window. -/
def generateBirthday (r : List Nat) : String × List Nat :=
  let a := draw r
  let age := minAge + a.1 % (maxAge - minAge + 1)
  let year := currentYear - age
  let b := draw a.2
  let month := 1 + b.1 % 12
  let c := draw b.2
  let day := 1 + c.1 % daysInMonth year month
  (toString year ++ "-" ++ pad2 month ++ "-" ++ pad2 day, c.2)

/-- Fill a phone template: each `X` becomes a random digit, every other
character is copied verbatim (spec §4.5). -/
def fillTemplate : List Char → List Nat → List Char × List Nat
  | [], r => ([], r)
  | ch :: cs, r =>
    if ch = 'X' then
      let n := draw r
      let rest := fillTemplate cs n.2
      (Char.ofNat (48 + n.1 % 10) :: rest.1, rest.2)
    else
      let rest := fillTemplate cs r
      (ch :: rest.1, rest.2)

/-- Modelled from the spec: the Phone Generator (spec §4.5), the
`generatePhone` import of `@/lib/generator`: fills the country's
template with random digits, keeping prefix and separators in place. -/
def generatePhone (cfg : CountryConfig) (r : List Nat) : String × List Nat :=
  let filled := fillTemplate cfg.phoneFormat.data r
  (String.mk filled.1, filled.2)

/-- Uppercase password class (spec §4.6). -/
def upperPool : List Char := "ABCDEFGHIJKLMNOPQRSTUVWXYZ".data

/-- Lowercase password class (spec §4.6). -/
def lowerPool : List Char := "abcdefghijklmnopqrstuvwxyz".data

/-- Digit password class (spec §4.6). -/
def digitPool : List Char := "0123456789".data

/-- Symbol password class (spec §4.6). -/
def symbolPool : List Char := "!@#$%^&*".data

/-- Password length policy constant (spec §4.6). -/
def passwordLength : Nat := 12

/-- Pick a character from a pool by a random draw. -/
def pickFrom (pool : List Char) (r : List Nat) : Char × List Nat :=
  let n := draw r
  (pool.getD (n.1 % pool.length) 'a', n.2)

/-- Remove the character at index `n mod length` from a list, returning
it together with the remaining characters. -/
def pickOut (cs : List Char) (n : Nat) : Char × List Char :=
  match cs with
  | [] => ('a', [])
  | c :: rest =>
    let i := n % (c :: rest).length
    ((c :: rest).getD i 'a', (c :: rest).take i ++ (c :: rest).drop (i + 1))

/-- Draw-based selection shuffle with explicit fuel (spec §4.6: the
character order is shuffled). -/
def shuffleAux : Nat → List Char → List Nat → List Char × List Nat
  | 0, cs, r => (cs, r)
  | Nat.succ k, cs, r =>
    match cs with
    | [] => ([], r)
    | c :: rest =>
      let n := draw r
      let picked := pickOut (c :: rest) n.1
      let tail := shuffleAux k picked.2 n.2
      (picked.1 :: tail.1, tail.2)

/-- Shuffle a character list using the random stream. -/
def shuffleChars (cs : List Char) (r : List Nat) : List Char × List Nat :=
  shuffleAux cs.length cs r

/-- Fill `k` positions from a pool (spec §4.6: remaining positions drawn
from the union of the classes). -/
def fillFrom (pool : List Char) : Nat → List Nat → List Char × List Nat
  | 0, r => ([], r)
  | Nat.succ k, r =>
    let c := pickFrom pool r
    let rest := fillFrom pool k c.2
    (c.1 :: rest.1, rest.2)

/-- Modelled from the spec: the Password Generator (spec §4.6), the
`generatePassword` import of `@/lib/generator`: one character from each
of the four classes, the rest from their union, then shuffled. -/
def generatePassword (r : List Nat) : String × List Nat :=
  let u := pickFrom upperPool r
  let l := pickFrom lowerPool u.2
  let d := pickFrom digitPool l.2
  let s := pickFrom symbolPool d.2
  let rest := fillFrom (upperPool ++ lowerPool ++ digitPool ++ symbolPool)
    (passwordLength - 4) s.2
  let shuffled := shuffleChars (u.1 :: l.1 :: d.1 :: s.1 :: rest.1) rest.2
  (String.mk shuffled.1, shuffled.2)

/-- Syntactic domain validation (spec §4.7): contains a dot and no
whitespace. -/
def isValidDomain (d : String) : Bool :=
  d.data.contains '.' && !(d.data.any Char.isWhitespace)

/-- Lowercase and strip characters outside the ASCII letter/digit set
(spec §4.7 local-part sanitisation). -/
def sanitizeLocal (s : String) : String :=
  String.mk ((s.data.filter (fun c => c.isAlpha || c.isDigit)).map Char.toLower)

/-- Modelled from the spec: the Email Composer (spec §4.7), the
`generateEmail` import of `@/lib/generator`: sanitised lowercase
local-part from the generated names plus a numeric suffix; the domain is
the explicit choice verbatim when given (after validation) and otherwise
a random member of the Domain Registry. -/
def generateEmail (firstName lastName : String) (customDomain : Option String)
    (r : List Nat) : Except GenError (String × List Nat) :=
  let base := sanitizeLocal (firstName ++ lastName)
  let n := draw r
  let localPart := base ++ toString (n.1 % 1000)
  match customDomain with
  | none =>
    let m := draw n.2
    let dom := allDomainsList.getD (m.1 % allDomainsList.length) ""
    Except.ok (localPart ++ "@" ++ dom, m.2)
  | some d =>
    if isValidDomain d then Except.ok (localPart ++ "@" ++ d, n.2)
    else Except.error GenError.invalidDomain

/-- The six-field identity record displayed by the page (`UserInfo` in
`src/app/page.tsx`, lines 102-109). -/
structure UserInfo where
  firstName : String
  lastName : String
  birthday : String
  phone : String
  password : String
  email : String
deriving DecidableEq, Repr

/-- Tags naming the five generators, used to record invocation order. -/
inductive GenTag where
  | name
  | birthday
  | phone
  | password
  | email
deriving DecidableEq, Repr

/-- Domain argument resolution of `src/app/page.tsx` line 541: the
sentinel `"random"` passes no explicit domain to the Email Composer,
any other choice is passed verbatim. -/
def customDomainOf (selectedDomain : String) : Option String :=
  if selectedDomain == "random" then none else some selectedDomain

/-- The generator composition of `generate` in `src/app/page.tsx`
(lines 536-543), instrumented with the list of generators invoked, in
order: name, then birthday, phone, password, and the email composed
last from the generated name parts. -/
def runGeneratorsT (country : CountryConfig) (selectedDomain : String)
    (r : List Nat) : Except GenError (UserInfo × List Nat) × List GenTag :=
  match generateName country.code r with
  | Except.error e => (Except.error e, [GenTag.name])
  | Except.ok (nm, r1) =>
    let b := generateBirthday r1
    let p := generatePhone country b.2
    let pw := generatePassword p.2
    match generateEmail nm.1 nm.2 (customDomainOf selectedDomain) pw.2 with
    | Except.error e =>
      (Except.error e,
       [GenTag.name, GenTag.birthday, GenTag.phone, GenTag.password, GenTag.email])
    | Except.ok (em, r5) =>
      (Except.ok ({ firstName := nm.1, lastName := nm.2, birthday := b.1,
                    phone := p.1, password := pw.1, email := em }, r5),
       [GenTag.name, GenTag.birthday, GenTag.phone, GenTag.password, GenTag.email])

/-- The result of the generator composition in `generate`
(`src/app/page.tsx` lines 536-543). -/
def runGenerators (country : CountryConfig) (selectedDomain : String)
    (r : List Nat) : Except GenError (UserInfo × List Nat) :=
  (runGeneratorsT country selectedDomain r).1

/-- The generator invocation trace of one generation request. -/
def runTrace (country : CountryConfig) (selectedDomain : String)
    (r : List Nat) : List GenTag :=
  (runGeneratorsT country selectedDomain r).2

/-- Modelled from the spec: the Engine entry point
`generateIdentity(countryConfig, domainChoice) -> IdentityRecord | Error`
(spec §2, §6): each generator invoked once on the given configuration,
the email composed last. -/
def generateIdentity (cfg : CountryConfig) (domainChoice : Option String)
    (r : List Nat) : Except GenError (UserInfo × List Nat) :=
  match generateNameFromPools cfg r with
  | Except.error e => Except.error e
  | Except.ok (nm, r1) =>
    let b := generateBirthday r1
    let p := generatePhone cfg b.2
    let pw := generatePassword p.2
    match generateEmail nm.1 nm.2 domainChoice pw.2 with
    | Except.error e => Except.error e
    | Except.ok (em, r5) =>
      Except.ok ({ firstName := nm.1, lastName := nm.2, birthday := b.1,
                   phone := p.1, password := pw.1, email := em }, r5)

/-- The save-button status of the page (`saveStatus` state,
`src/app/page.tsx` line 486). -/
inductive SaveStatus where
  | idle
  | saving
  | saved
deriving DecidableEq, Repr

/-- The IP information shown in the header (`ipInfo` state,
`src/app/page.tsx` line 480). -/
structure IpInfo where
  ip : String
  country : String
deriving DecidableEq, Repr

/-- The page state relevant to the claims: the React `useState` cells of
`GlassStylePage` (`src/app/page.tsx` lines 473-489) plus the
saved-identity store (modelled from the spec as the set of saved emails,
since `@/lib/identityData` is not in the source tree). -/
structure PageState where
  selectedCountry : CountryConfig
  selectedDomain : String
  userInfo : UserInfo
  showCountrySheet : Bool
  showDomainSheet : Bool
  ipInfo : IpInfo
  isInitialized : Bool
  copiedField : Option String
  saveStatus : SaveStatus
  isSaved : Bool
  isGenerating : Bool
  savedEmails : List String
deriving DecidableEq, Repr

/-- The synchronous part of `generate` (`src/app/page.tsx` lines
528-532): enter the generating state and clear the copy/save flags. -/
def generateSync (s : PageState) : PageState :=
  { s with isGenerating := true, copiedField := none,
           saveStatus := SaveStatus.idle, isSaved := false }

/-- The deferred callback of `generate` (`src/app/page.tsx` lines
535-549): run the generators; on success replace the whole record, on
failure leave it unchanged; in both cases clear the generating flag. -/
def generateCallback (s : PageState) (r : List Nat) : PageState × List Nat :=
  match runGenerators s.selectedCountry s.selectedDomain r with
  | Except.ok (u, rr) => ({ s with userInfo := u, isGenerating := false }, rr)
  | Except.error _ => ({ s with isGenerating := false }, r)

/-- One complete generation request (`generate`, `src/app/page.tsx`
lines 527-550): the synchronous part followed by the callback. -/
def generateStep (s : PageState) (r : List Nat) : PageState × List Nat :=
  generateCallback (generateSync s) r

/-- Modelled from the spec: `isIdentitySaved` of `@/lib/identityData`,
membership in the email-keyed saved-identity store. -/
def isIdentitySaved (store : List String) (email : String) : Bool :=
  store.contains email

/-- Modelled from the spec: `addIdentity` of `@/lib/identityData`,
recording an identity in the email-keyed store. -/
def addIdentity (store : List String) (email : String) : List String :=
  store ++ [email]

/-- The completed save action (`handleSaveIdentity`, `src/app/page.tsx`
lines 552-578, with its animation timers collapsed): a no-op when a save
is in progress, the email is already saved, or the email is empty;
otherwise the identity is added to the store and marked saved. -/
def handleSaveIdentity (s : PageState) : PageState :=
  if s.saveStatus = SaveStatus.saving ∨ s.isSaved = true ∨ s.userInfo.email = "" then
    s
  else
    { s with savedEmails := addIdentity s.savedEmails s.userInfo.email,
             saveStatus := SaveStatus.saved, isSaved := true }

/-- The effect of `src/app/page.tsx` lines 580-584, run when the
record's email changes: recompute the saved flag from the store. -/
def emailChangedEffect (s : PageState) : PageState :=
  if s.userInfo.email = "" then s
  else { s with isSaved := isIdentitySaved s.savedEmails s.userInfo.email }

/-- JavaScript string truthiness for optional response fields. -/
def strTruthy : Option String → Bool
  | none => false
  | some s => s != ""

/-- JavaScript `a || b` defaulting on an optional string field. -/
def jsOr (o : Option String) (dflt : String) : String :=
  if strTruthy o then o.getD dflt else dflt

/-- The geolocation response body consumed by `initializeApp`
(`src/app/page.tsx` lines 611-619). -/
structure IpData where
  ip : Option String
  country : Option String
  accurate : Bool
deriving DecidableEq, Repr

/-- The initialisation effect (`initializeApp`, `src/app/page.tsx` lines
598-637): `none` models a failed or timed-out fetch.  On a response the
IP header is filled; when the response carries an accurate country whose
code resolves in the registry the selected country is replaced,
otherwise it is left alone; in every case initialisation completes. -/
def initializeApp (s : PageState) (resp : Option IpData) : PageState :=
  match resp with
  | none =>
    { s with ipInfo := { ip := "检测失败", country := "US" },
             isInitialized := true }
  | some d =>
    let s1 := { s with ipInfo := { ip := jsOr d.ip "未知",
                                   country := jsOr d.country "US" } }
    let s2 :=
      if strTruthy d.country && d.accurate then
        match getCountryConfig (d.country.getD "") with
        | some cc => { s1 with selectedCountry := cc }
        | none => s1
      else s1
    { s2 with isInitialized := true }

/-- The country-selection handler (`handleCountrySelect`,
`src/app/page.tsx` lines 662-666). -/
def handleCountrySelect (s : PageState) (c : CountryConfig) : PageState :=
  { s with selectedCountry := c, showCountrySheet := false }

/-- The domain-selection handler (`handleDomainSelect`,
`src/app/page.tsx` lines 668-672). -/
def handleDomainSelect (s : PageState) (d : String) : PageState :=
  { s with selectedDomain := d, showDomainSheet := false }

/-- The initial-generation effect (`src/app/page.tsx` lines 639-653),
re-run whenever its dependencies (initialisation, the record's first
name, the selected country or domain) change: it only generates while
no record exists yet (`!userInfo.firstName`). -/
def initialGenEffect (s : PageState) (r : List Nat) : PageState × List Nat :=
  if s.isInitialized = true ∧ s.userInfo.firstName = "" then
    match runGenerators s.selectedCountry s.selectedDomain r with
    | Except.ok (u, rr) => ({ s with userInfo := u }, rr)
    | Except.error _ => (s, r)
  else (s, r)

/-- The regeneration effect (`src/app/page.tsx` lines 655-657), keyed on
`selectedCountry.code`: when the code changed and an identity is already
displayed, a full generation request runs. -/
def countryCodeEffect (prevCode : String) (s : PageState) (r : List Nat) :
    PageState × List Nat :=
  if prevCode ≠ s.selectedCountry.code then
    if s.isInitialized = true ∧ s.userInfo.firstName ≠ "" then generateStep s r
    else (s, r)
  else (s, r)

/-- A domain selection together with the effects it can trigger: the
handler, then the initial-generation effect (whose dependencies include
the selected domain), then the regeneration effect (whose key, the
country code, is unchanged). -/
def domainSelectStep (s : PageState) (d : String) (r : List Nat) :
    PageState × List Nat :=
  let s1 := handleDomainSelect s d
  let e1 := initialGenEffect s1 r
  countryCodeEffect s.selectedCountry.code e1.1 e1.2

/-- A country selection together with the effects it can trigger: the
handler, then the initial-generation effect, then the regeneration
effect keyed on the previous country code. -/
def countrySelectStep (s : PageState) (c : CountryConfig) (r : List Nat) :
    PageState × List Nat :=
  let s1 := handleCountrySelect s c
  let e1 := initialGenEffect s1 r
  countryCodeEffect s.selectedCountry.code e1.1 e1.2

/-- Lowercasing as performed by `toLowerCase()` on the ASCII domain
strings of the registry. -/
def jsToLower (s : String) : String :=
  String.mk (s.data.map Char.toLower)

/-- Case-sensitive substring containment, the `includes` test of
`src/app/page.tsx` line 361. -/
def includesStr (s sub : String) : Bool :=
  decide (sub.data <:+: s.data)

/-- The search filter of `DomainList` (`src/app/page.tsx` lines
358-362): the whole list for an empty query, otherwise the domains
containing the query case-insensitively. -/
def filteredDomains (allDomains : List String) (q : String) : List String :=
  if q = "" then allDomains
  else allDomains.filter (fun d => includesStr (jsToLower d) (jsToLower q))

/-- The visible slice of the filtered list (`src/app/page.tsx` lines
364-366). -/
def visibleDomains (allDomains : List String) (q : String) (count : Nat) :
    List String :=
  (filteredDomains allDomains q).take count

/-- A concrete page state with a displayed identity, used to exercise
the theorems on concrete inputs. -/
def sampleState : PageState :=
  { selectedCountry := usConfig, selectedDomain := "random",
    userInfo := { firstName := "John", lastName := "Smith",
                  birthday := "1990-05-12", phone := "+1 (555) 123-4567",
                  password := "Ab1!Ab1!Ab1!", email := "johnsmith42@gmail.com" },
    showCountrySheet := false, showDomainSheet := false,
    ipInfo := { ip := "1.2.3.4", country := "US" },
    isInitialized := true, copiedField := none,
    saveStatus := SaveStatus.idle, isSaved := false,
    isGenerating := false, savedEmails := [] }

/-- The sample state with an explicit, syntactically invalid domain
selected, so that a generation request fails in the Email Composer. -/
def badDomainState : PageState :=
  { sampleState with selectedDomain := "bad domain" }

/-- The sample state with a different previous record, used to show the
new record does not depend on the previous one. -/
def otherRecordState : PageState :=
  { sampleState with
    userInfo := { firstName := "Mary", lastName := "Brown",
                  birthday := "1975-01-01", phone := "+1 (222) 000-1111",
                  password := "Xy9#Xy9#Xy9#", email := "marybrown7@mail.com" } }

/-- A concrete state whose record has no email, used to exercise the
save guards. -/
def noEmailState : PageState :=
  { sampleState with
    userInfo := { firstName := "", lastName := "", birthday := "",
                  phone := "", password := "", email := "" } }

/-- The concrete record produced by a generation request from
`sampleState` with the random stream `[1,2,3,4,5,6,7,8,9,10]`. -/
def sampleRecord : UserInfo :=
  { firstName := "Mary", lastName := "Brown", birthday := "2003-05-06",
    phone := "+1 (678) 900-0000", password := "Aa0!AAAAAAAA",
    email := "marybrown0@gmail.com" }

/-- A concrete geolocation response whose country code matches no
registry entry. -/
def zzIpData : IpData :=
  { ip := some "1.2.3.4", country := some "ZZ", accurate := true }

/-- C3: when the caller's domainChoice equals the sentinel "random", no
explicit domain is passed to the Email Composer and the domain is drawn
from the Domain Registry; any other domainChoice is passed verbatim
(`src/app/page.tsx` line 541). -/
theorem domain_choice_resolution (d : String) (h : d ≠ "random") :
    customDomainOf "random" = none ∧
    customDomainOf d = some d ∧
    ∀ fn ln r, ∃ lp dm, dm ∈ allDomainsList ∧
      generateEmail fn ln none r =
        Except.ok (lp ++ "@" ++ dm, (draw (draw r).2).2) := by
  refine ⟨rfl, ?_, ?_⟩
  · simp [customDomainOf, h]
  · intro fn ln r
    refine ⟨sanitizeLocal (fn ++ ln) ++ toString ((draw r).1 % 1000),
      allDomainsList.getD ((draw (draw r).2).1 % allDomainsList.length) "", ?_, rfl⟩
    have hlen : allDomainsList.length = 4 := by decide
    have hlt : (draw (draw r).2).1 % allDomainsList.length < allDomainsList.length := by
      rw [hlen]; exact Nat.mod_lt _ (by decide)
    rw [List.getD_eq_getElem _ _ hlt]
    exact List.getElem_mem hlt

theorem domain_choice_resolution_witness :
    customDomainOf "random" = none ∧
    customDomainOf "example.com" = some "example.com" ∧
    ∀ fn ln r, ∃ lp dm, dm ∈ allDomainsList ∧
      generateEmail fn ln none r =
        Except.ok (lp ++ "@" ++ dm, (draw (draw r).2).2) :=
  domain_choice_resolution "example.com" (by decide)

/-- C6: a generation request always resolves: entering the request sets
the generating flag, and after the request completes, whether the
generators succeeded or threw, the flag is false again
(`src/app/page.tsx` lines 527-550). -/
theorem generating_flag_always_resolves (s : PageState) (r : List Nat) :
    (generateSync s).isGenerating = true ∧
    (generateStep s r).1.isGenerating = false := by
  refine ⟨rfl, ?_⟩
  unfold generateStep generateCallback
  cases h : runGenerators (generateSync s).selectedCountry (generateSync s).selectedDomain r with
  | ok v => cases v with | mk u rr => simp
  | error e => simp

/-- C8: for every query the filtered domain list is exactly the
subsequence of the registry's output whose elements contain the query
case-insensitively (the full list for the empty query), in registry
order, and the visible list is a prefix of the filtered list
(`src/app/page.tsx` lines 358-366). -/
theorem domain_filter_preserves_registry_order (q : String) (count : Nat) :
    filteredDomains getAllDomains q
      = getAllDomains.filter (fun d => includesStr (jsToLower d) (jsToLower q)) ∧
    List.Sublist (filteredDomains getAllDomains q) getAllDomains ∧
    visibleDomains getAllDomains q count <+: filteredDomains getAllDomains q := by
  refine ⟨?_, ?_, ?_⟩
  · unfold filteredDomains
    by_cases hq : q = ""
    · subst hq; simp; decide
    · rw [if_neg hq]
  · unfold filteredDomains
    by_cases hq : q = ""
    · rw [if_pos hq]
    · rw [if_neg hq]; exact List.filter_sublist _
  · exact ⟨(filteredDomains getAllDomains q).drop count,
      List.take_append_drop count (filteredDomains getAllDomains q)⟩

/-- C10: an identity is saved at most once per email: the save handler
is a no-op when a save is in progress, when the email is already marked
saved, or when the email is empty; the saved flag is recomputed from the
store when the record's email changes; and a completed save makes any
further save a no-op (`src/app/page.tsx` lines 552-584). -/
theorem save_identity_guards (s t : PageState)
    (hg : t.saveStatus = SaveStatus.saving ∨ t.isSaved = true ∨ t.userInfo.email = "")
    (he : s.userInfo.email ≠ "") :
    handleSaveIdentity t = t ∧
    (emailChangedEffect s).isSaved = isIdentitySaved s.savedEmails s.userInfo.email ∧
    handleSaveIdentity (handleSaveIdentity s) = handleSaveIdentity s := by
  refine ⟨?_, ?_, ?_⟩
  · unfold handleSaveIdentity
    rw [if_pos hg]
  · unfold emailChangedEffect
    rw [if_neg he]
  · by_cases hgs : s.saveStatus = SaveStatus.saving ∨ s.isSaved = true ∨ s.userInfo.email = ""
    · have h1 : handleSaveIdentity s = s := by
        unfold handleSaveIdentity; rw [if_pos hgs]
      simp [h1]
    · have h1 : handleSaveIdentity s =
          { s with savedEmails := addIdentity s.savedEmails s.userInfo.email,
                   saveStatus := SaveStatus.saved, isSaved := true } := by
        unfold handleSaveIdentity; rw [if_neg hgs]
      rw [h1]
      unfold handleSaveIdentity
      rw [if_pos (Or.inr (Or.inl rfl))]

theorem save_identity_guards_witness :
    handleSaveIdentity noEmailState = noEmailState ∧
    (emailChangedEffect sampleState).isSaved
      = isIdentitySaved sampleState.savedEmails sampleState.userInfo.email ∧
    handleSaveIdentity (handleSaveIdentity sampleState) = handleSaveIdentity sampleState :=
  save_identity_guards sampleState noEmailState (Or.inr (Or.inr rfl)) (by decide)

/-- C2: if the generator composition fails, the whole request is
aborted and the previously displayed record, all six fields, is left
unchanged (`src/app/page.tsx` lines 536-549). -/
theorem generator_failure_preserves_record (s : PageState) (r : List Nat) (e : GenError)
    (h : runGenerators s.selectedCountry s.selectedDomain r = Except.error e) :
    (generateStep s r).1.userInfo = s.userInfo := by
  unfold generateStep generateCallback generateSync
  simp only
  rw [h]

theorem generator_failure_preserves_record_witness :
    (generateStep badDomainState []).1.userInfo = badDomainState.userInfo :=
  generator_failure_preserves_record badDomainState [] GenError.invalidDomain rfl

/-- C4: a successful generation request replaces the whole six-field
record with the record produced by that request, independently of the
previously displayed record (`src/app/page.tsx` lines 537-543). -/
theorem successful_generation_replaces_record (s t : PageState) (r : List Nat)
    (hc : s.selectedCountry = t.selectedCountry)
    (hd : s.selectedDomain = t.selectedDomain)
    (u : UserInfo) (rr : List Nat)
    (h : runGenerators s.selectedCountry s.selectedDomain r = Except.ok (u, rr)) :
    (generateStep s r).1.userInfo = u ∧ (generateStep t r).1.userInfo = u := by
  constructor
  · unfold generateStep generateCallback generateSync
    simp only
    rw [h]
  · unfold generateStep generateCallback generateSync
    simp only
    rw [← hc, ← hd, h]

theorem successful_generation_replaces_record_witness :
    (generateStep sampleState [1,2,3,4,5,6,7,8,9,10]).1.userInfo = sampleRecord ∧
    (generateStep otherRecordState [1,2,3,4,5,6,7,8,9,10]).1.userInfo = sampleRecord :=
  successful_generation_replaces_record sampleState otherRecordState
    [1,2,3,4,5,6,7,8,9,10] rfl rfl sampleRecord [] rfl

/-- C5: the page-side composition of the five generator calls
(`src/app/page.tsx` lines 536-543) is equivalent to the single Engine
entry point `generateIdentity(countryConfig, domainChoice)` of the spec,
for any registry-consistent country configuration. -/
theorem caller_composition_refines_engine (cfg : CountryConfig) (dom : String) (r : List Nat)
    (h : getCountryConfig cfg.code = some cfg) :
    runGenerators cfg dom r = generateIdentity cfg (customDomainOf dom) r := by
  unfold runGenerators runGeneratorsT generateIdentity generateName
  simp only [h]
  cases hn : generateNameFromPools cfg r with
  | error e => simp [hn]
  | ok v =>
    cases v with
    | mk nm r1 =>
      simp only [hn]
      cases he : generateEmail nm.1 nm.2 (customDomainOf dom)
          (generatePassword (generatePhone cfg (generateBirthday r1).2).2).2 with
      | error e => simp [he]
      | ok em => simp [he]

theorem caller_composition_refines_engine_witness :
    runGenerators usConfig "example.com" [1,2] =
      generateIdentity usConfig (customDomainOf "example.com") [1,2] :=
  caller_composition_refines_engine usConfig "example.com" [1,2] rfl

/-- C7: country lookup reports not-found exactly when the code matches
no registry entry, and when the geolocation-supplied code resolves to no
configuration the selected country is left at its default and
initialisation still completes (`src/app/page.tsx` lines 598-637). -/
theorem unknown_country_falls_back_to_default (s : PageState) (resp : Option IpData)
    (h : ∀ d, resp = some d → getCountryConfig (d.country.getD "") = none) :
    (initializeApp s resp).selectedCountry = s.selectedCountry ∧
    (initializeApp s resp).isInitialized = true ∧
    ∀ code, getCountryConfig code = none ↔ ∀ c ∈ countries, c.code ≠ code := by
  refine ⟨?_, ?_, ?_⟩
  · cases resp with
    | none => rfl
    | some d =>
      have hd := h d rfl
      unfold initializeApp
      simp only
      by_cases hc : strTruthy d.country && d.accurate
      · rw [if_pos hc, hd]
      · rw [if_neg hc]
  · cases resp with
    | none => rfl
    | some d => rfl
  · intro code
    simp [getCountryConfig, List.find?_eq_none]

theorem unknown_country_falls_back_to_default_witness :
    (initializeApp sampleState (some zzIpData)).selectedCountry
      = sampleState.selectedCountry ∧
    (initializeApp sampleState (some zzIpData)).isInitialized = true ∧
    ∀ code, getCountryConfig code = none ↔ ∀ c ∈ countries, c.code ≠ code :=
  unknown_country_falls_back_to_default sampleState (some zzIpData)
    (by intro d hd; cases hd; rfl)

/-- Helper: the initial-generation effect is inert once a record with a
non-empty first name is displayed. -/
theorem initialGenEffect_of_existing (s : PageState) (r : List Nat)
    (hf : s.userInfo.firstName ≠ "") : initialGenEffect s r = (s, r) := by
  unfold initialGenEffect
  rw [if_neg (fun hcon => hf hcon.2)]

/-- Helper: the regeneration effect is inert when the country code did
not change. -/
theorem countryCodeEffect_same (code : String) (s : PageState) (r : List Nat)
    (h : code = s.selectedCountry.code) : countryCodeEffect code s r = (s, r) := by
  unfold countryCodeEffect
  rw [if_neg (fun hcon => hcon h)]

/-- Helper: the regeneration effect runs a full generation request when
the country code changed and an identity is displayed. -/
theorem countryCodeEffect_changed (code : String) (s : PageState) (r : List Nat)
    (h : code ≠ s.selectedCountry.code) (hi : s.isInitialized = true)
    (hf : s.userInfo.firstName ≠ "") :
    countryCodeEffect code s r = generateStep s r := by
  unfold countryCodeEffect
  rw [if_pos h, if_pos ⟨hi, hf⟩]

/-- C9: selecting an email domain leaves the displayed identity record,
its email included, unchanged, while selecting a country with a new code
triggers a full regeneration request (`src/app/page.tsx` lines 639-672). -/
theorem domain_selection_preserves_identity (s : PageState) (d : String)
    (c : CountryConfig) (r : List Nat)
    (hf : s.userInfo.firstName ≠ "")
    (hi : s.isInitialized = true)
    (hc : c.code ≠ s.selectedCountry.code) :
    (domainSelectStep s d r).1.userInfo = s.userInfo ∧
    countrySelectStep s c r = generateStep (handleCountrySelect s c) r := by
  constructor
  · have h1 : initialGenEffect (handleDomainSelect s d) r = (handleDomainSelect s d, r) :=
      initialGenEffect_of_existing _ _ hf
    have h2 : countryCodeEffect s.selectedCountry.code (handleDomainSelect s d) r
        = (handleDomainSelect s d, r) :=
      countryCodeEffect_same _ _ _ rfl
    show (countryCodeEffect s.selectedCountry.code
      (initialGenEffect (handleDomainSelect s d) r).1
      (initialGenEffect (handleDomainSelect s d) r).2).1.userInfo = s.userInfo
    rw [h1, h2]
    rfl
  · have h1 : initialGenEffect (handleCountrySelect s c) r = (handleCountrySelect s c, r) :=
      initialGenEffect_of_existing _ _ hf
    show countryCodeEffect s.selectedCountry.code
      (initialGenEffect (handleCountrySelect s c) r).1
      (initialGenEffect (handleCountrySelect s c) r).2
      = generateStep (handleCountrySelect s c) r
    rw [h1]
    exact countryCodeEffect_changed _ _ _ (fun hcon => hc hcon.symm) hi hf

theorem domain_selection_preserves_identity_witness :
    (domainSelectStep sampleState "mail.com" [2,4,6,8]).1.userInfo
      = sampleState.userInfo ∧
    countrySelectStep sampleState gbConfig [2,4,6,8]
      = generateStep (handleCountrySelect sampleState gbConfig) [2,4,6,8] :=
  domain_selection_preserves_identity sampleState "mail.com" gbConfig [2,4,6,8]
    (by decide) rfl (by decide)

/-- C1: on a successful generation request each generator is invoked
exactly once, in the order name, birthday, phone, password, email; the
email is composed last and is the only generator receiving another
generator's output, namely the generated first and last name
(`src/app/page.tsx` lines 536-543). -/
theorem generate_invokes_each_generator_once (cfg : CountryConfig) (dom : String)
    (r : List Nat) (u : UserInfo) (rr : List Nat)
    (h : runGenerators cfg dom r = Except.ok (u, rr)) :
    runTrace cfg dom r
      = [GenTag.name, GenTag.birthday, GenTag.phone, GenTag.password, GenTag.email] ∧
    ∃ fn ln r1, generateName cfg.code r = Except.ok ((fn, ln), r1) ∧
      u.firstName = fn ∧ u.lastName = ln ∧
      u.birthday = (generateBirthday r1).1 ∧
      u.phone = (generatePhone cfg (generateBirthday r1).2).1 ∧
      u.password = (generatePassword (generatePhone cfg (generateBirthday r1).2).2).1 ∧
      generateEmail fn ln (customDomainOf dom)
          (generatePassword (generatePhone cfg (generateBirthday r1).2).2).2
        = Except.ok (u.email, rr) := by
  unfold runGenerators at h
  unfold runTrace
  unfold runGeneratorsT at h ⊢
  cases hn : generateName cfg.code r with
  | error e => rw [hn] at h; exact absurd h (by simp)
  | ok v =>
    cases v with
    | mk nm r1 =>
      rw [hn] at h
      simp only at h
      cases he : generateEmail nm.1 nm.2 (customDomainOf dom)
          (generatePassword (generatePhone cfg (generateBirthday r1).2).2).2 with
      | error e => rw [he] at h; exact absurd h (by simp)
      | ok em =>
        rw [he] at h
        simp only [Except.ok.injEq, Prod.mk.injEq] at h
        obtain ⟨hu, hr⟩ := h
        constructor
        · simp [hn, he]
        · exact ⟨nm.1, nm.2, r1, rfl, by rw [← hu], by rw [← hu], by rw [← hu],
            by rw [← hu], by rw [← hu], by rw [he, ← hu, ← hr]⟩

theorem generate_invokes_each_generator_once_witness :
    runTrace usConfig "random" [1,2,3,4,5,6,7,8,9,10]
      = [GenTag.name, GenTag.birthday, GenTag.phone, GenTag.password, GenTag.email] ∧
    ∃ fn ln r1, generateName usConfig.code [1,2,3,4,5,6,7,8,9,10]
        = Except.ok ((fn, ln), r1) ∧
      sampleRecord.firstName = fn ∧ sampleRecord.lastName = ln ∧
      sampleRecord.birthday = (generateBirthday r1).1 ∧
      sampleRecord.phone = (generatePhone usConfig (generateBirthday r1).2).1 ∧
      sampleRecord.password
        = (generatePassword (generatePhone usConfig (generateBirthday r1).2).2).1 ∧
      generateEmail fn ln (customDomainOf "random")
          (generatePassword (generatePhone usConfig (generateBirthday r1).2).2).2
        = Except.ok (sampleRecord.email, []) :=
  generate_invokes_each_generator_once usConfig "random" [1,2,3,4,5,6,7,8,9,10]
    sampleRecord [] rfl
